import Mathlib

/-!
Shallow embedding of the bus_station_api booking backend
(station/views.py, station/serializers.py, station/permissions.py),
with the entity records modelled from the specification where the
models module is not part of the provided sources.
-/

/-- Modelled from the spec: `station/models.py` is not under src/.
Facility is a flat named amenity attachable to buses. -/
structure Facility where
  id : Nat
  name : String
deriving DecidableEq

/-- Modelled from the spec: `station/models.py` is not under src/.
Bus is a vehicle with optional info text, a seat capacity and a set of
attached facility ids (many-to-many). -/
structure Bus where
  id : Nat
  info : Option String
  num_seats : Int
  facilities : List Nat
deriving DecidableEq

/-- Modelled from the spec: `station/models.py` is not under src/.
A Trip references exactly one Bus; departure/arrival attributes are
opaque to this core and omitted. -/
structure Trip where
  id : Nat
  busId : Nat
deriving DecidableEq

/-- Modelled from the spec: `station/models.py` is not under src/.
An Order is owned by one user. -/
structure Order where
  id : Nat
  userId : Nat
deriving DecidableEq

/-- Modelled from the spec: `station/models.py` is not under src/.
A Ticket references one Trip and belongs to one Order. -/
structure Ticket where
  id : Nat
  tripId : Nat
  seat : String
  orderId : Nat
deriving DecidableEq

/-- The persistent store: the four entity tables plus tickets. -/
structure Db where
  facilities : List Facility
  buses : List Bus
  trips : List Trip
  orders : List Order
  tickets : List Ticket
deriving DecidableEq

/-- The acting identity as the permission layer sees it:
`is_authenticated` and `is_staff` flags of `request.user`. -/
structure User where
  is_authenticated : Bool
  is_staff : Bool
deriving DecidableEq

/-- HTTP request methods relevant to the permission rule. -/
inductive HttpMethod
  | get
  | head
  | options
  | post
  | put
  | patch
  | delete
deriving DecidableEq

/-- The framework's read-only method set (GET, HEAD, OPTIONS). -/
def SAFE_METHODS : List HttpMethod := [.get, .head, .options]

/-- Truthiness of `request.user` (set or not set). -/
def userTruthy : Option User → Bool
  | some _ => true
  | none => false

/-- `request.user.is_authenticated`, false when no user is set. -/
def userIsAuthenticated : Option User → Bool
  | some u => u.is_authenticated
  | none => false

/-- `request.user.is_staff`, false when no user is set. -/
def userIsStaff : Option User → Bool
  | some u => u.is_staff
  | none => false

/-- `IsAdminOrIFAuthenticatedReadOnly.has_permission` from
station/permissions.py: permit when the method is safe and the user is
authenticated, or when the user is staff. -/
def isAdminOrIFAuthenticatedReadOnly (m : HttpMethod) (user : Option User) : Bool :=
  (SAFE_METHODS.contains m && userTruthy user && userIsAuthenticated user)
    || (userTruthy user && userIsStaff user)

/-- The permission classes that appear in station/views.py. -/
inductive PermissionClass
  | isAdminOrIFAuthenticatedReadOnlyClass
  | isAuthenticatedClass
  | isAdminUserClass
deriving DecidableEq

/-- `BusViewSet.permission_classes`. -/
def busViewSetPermissionClasses : List PermissionClass :=
  [.isAdminOrIFAuthenticatedReadOnlyClass]

/-- `TripViewSet.permission_classes`. -/
def tripViewSetPermissionClasses : List PermissionClass :=
  [.isAdminOrIFAuthenticatedReadOnlyClass]

/-- `FacilityViewSet.permission_classes`. -/
def facilityViewSetPermissionClasses : List PermissionClass :=
  [.isAdminOrIFAuthenticatedReadOnlyClass]

/-- `OrderViewSet.permission_classes`. -/
def orderViewSetPermissionClasses : List PermissionClass :=
  [.isAuthenticatedClass]

/-- Spec-side predicate: the operation is read-only. -/
def readOnlyOperation (m : HttpMethod) : Prop := m ∈ SAFE_METHODS

/-- Spec-side predicate: the identity is authenticated. -/
def identityAuthenticated (u : Option User) : Prop :=
  ∃ x, u = some x ∧ x.is_authenticated = true

/-- Spec-side predicate: the identity is privileged (staff). -/
def identityPrivileged (u : Option User) : Prop :=
  ∃ x, u = some x ∧ x.is_staff = true

/-- Errors an operation can surface to the caller. An uncaught Python
exception is kept distinct from a fielded validation error. -/
inductive ApiError
  | notFound
  | permissionDenied
  | validationError (fieldErrors : List (String × String))
  | uncaughtException (exceptionName : String)
deriving DecidableEq

/-- Number of tickets referencing a trip (`Count("tickets")` grouped per
trip row). -/
def countTickets (db : Db) (tripId : Nat) : Nat :=
  (db.tickets.filter (fun tk => tk.tripId == tripId)).length

/-- `TripViewSet.get_queryset` for the list/retrieve actions: each trip
joined with its bus and annotated with
`tickets_available = bus.num_seats - Count("tickets")` in one pass over
the trip table. -/
def tripGetQueryset (db : Db) : List (Trip × Int) :=
  db.trips.filterMap (fun t =>
    (db.buses.find? (fun b => b.id == t.busId)).map
      (fun b => (t, b.num_seats - (countTickets db t.id : Int))))

/-- `OrderViewSet.get_queryset`: the order table filtered by
`user=self.request.user` before any lookup. -/
def orderGetQueryset (requesterId : Nat) (db : Db) : List Order :=
  db.orders.filter (fun o => o.userId == requesterId)

/-- Order retrieve: `get_object` looks the id up inside the
ownership-filtered queryset; a miss is a not-found error. -/
def orderRetrieve (requesterId : Nat) (orderId : Nat) (db : Db) :
    Except ApiError Order :=
  match (orderGetQueryset requesterId db).find? (fun o => o.id == orderId) with
  | some o => Except.ok o
  | none => Except.error ApiError.notFound

/-- One requested ticket inside an order-creation payload. -/
structure TicketPayload where
  tripId : Nat
  seat : String
deriving DecidableEq

/-- An order-creation request body: a possible client-supplied user id
and the requested tickets. -/
structure OrderPayload where
  clientUserId : Option Nat
  tickets : List TicketPayload
deriving DecidableEq

/-- Auto-increment id for a new order row. -/
def freshOrderId (db : Db) : Nat := (db.orders.map Order.id).foldr max 0 + 1

/-- Auto-increment id for a new ticket row. -/
def freshTicketId (db : Db) : Nat := (db.tickets.map Ticket.id).foldr max 0 + 1

/-- Ticket rows persisted for an order, with consecutive fresh ids. -/
def buildTickets (baseId : Nat) (orderId : Nat) : List TicketPayload → List Ticket
  | [] => []
  | tp :: rest =>
      { id := baseId, tripId := tp.tripId, seat := tp.seat, orderId := orderId }
        :: buildTickets (baseId + 1) orderId rest

/-- `OrderViewSet.perform_create` calling `serializer.save(user=self.request.user)`.
Modelled from the spec for the part `OrderSerializer.create` that is not
under src/: the order row and its ticket rows are persisted together; the
`user` keyword argument passed by `perform_create` overrides any
client-supplied user value (framework save semantics), so the owner is
always the requesting identity. No capacity check is performed. -/
def performCreateOrder (requesterId : Nat) (payload : OrderPayload) (db : Db) :
    Db × Order :=
  let order : Order := { id := freshOrderId db, userId := requesterId }
  let newTickets := buildTickets (freshTicketId db) order.id payload.tickets
  ({ db with orders := db.orders ++ [order], tickets := db.tickets ++ newTickets },
    order)

/-- Python `str.split(",")` over the characters of the string: the empty
string yields one empty token. -/
def splitCommaAux : List Char → List Char → List (List Char)
  | [], acc => [acc.reverse]
  | c :: rest, acc =>
      if c = ',' then acc.reverse :: splitCommaAux rest []
      else splitCommaAux rest (c :: acc)

/-- Decimal digit value of a character, none for a non-digit. -/
def digitVal? (c : Char) : Option Nat :=
  if c.isDigit then some (c.toNat - 48) else none

/-- Accumulate a decimal number over characters; a non-digit fails. -/
def digitsToNatAux (acc : Nat) : List Char → Option Nat
  | [] => some acc
  | c :: rest =>
      match digitVal? c with
      | some d => digitsToNatAux (acc * 10 + d) rest
      | none => none

/-- Python `int(token)` on a plain token: an optional sign followed by at
least one decimal digit; any other shape raises ValueError, modelled as
`none`. -/
def pyInt? : List Char → Option Int
  | [] => none
  | '-' :: rest =>
      if rest.isEmpty then none
      else (digitsToNatAux 0 rest).map (fun n => -(n : Int))
  | '+' :: rest =>
      if rest.isEmpty then none
      else (digitsToNatAux 0 rest).map (fun n => (n : Int))
  | l => (digitsToNatAux 0 l).map (fun n => (n : Int))

/-- `BusViewSet._params_to_ints`: split on commas and convert each token
with `int(...)`; a non-numeric token raises, modelled as `none`. -/
def paramsToInts (qs : String) : Option (List Int) :=
  (splitCommaAux qs.data []).mapM pyInt?

/-- Row multiset produced by joining buses against their facilities with
`facilities__id__in=ids` before `distinct()`: one row per (bus, matching
facility) pair. -/
def busFacilityJoinRows (buses : List Bus) (ids : List Int) : List Bus :=
  buses.flatMap (fun b =>
    (b.facilities.filter (fun fid => decide (Int.ofNat fid ∈ ids))).map (fun _ => b))

/-- `BusViewSet.get_queryset`: when a non-empty `facilities` query
parameter is present, parse it to ints (an unparsable token propagates an
uncaught ValueError), filter buses by facility membership and apply
`distinct()`; otherwise return all buses. -/
def busGetQueryset (db : Db) (facilitiesParam : Option String) :
    Except ApiError (List Bus) :=
  match facilitiesParam with
  | none => Except.ok db.buses
  | some s =>
      if s.data.isEmpty then Except.ok db.buses
      else
        match paramsToInts s with
        | none => Except.error (ApiError.uncaughtException "ValueError")
        | some ids => Except.ok ((busFacilityJoinRows db.buses ids).dedup)

/-- A raw JSON-ish field value arriving in a request payload. -/
inductive RawValue
  | intVal (i : Int)
  | strVal (s : String)
deriving DecidableEq

/-- Raw create/update request body for a bus: each declared writable
field either present with a raw value or absent. -/
structure RawBusPayload where
  info : Option RawValue
  num_seats : Option RawValue
deriving DecidableEq

/-- CharField conversion: strings pass through, numbers are stringified. -/
def validateCharField : RawValue → Except String String
  | .strVal s => Except.ok s
  | .intVal i => Except.ok (toString i)

/-- IntegerField conversion: an integer is accepted as is (no bound is
declared on the field), a numeric string is converted, anything else is
a field error. -/
def validateIntegerField : RawValue → Except String Int
  | .intVal i => Except.ok i
  | .strVal s =>
      match s.toInt? with
      | some i => Except.ok i
      | none => Except.error "A valid integer is required."

/-- Validated data accepted by `BusSerializer` for create:
`info` optional, `num_seats` required. -/
structure ValidatedBusCreate where
  info : Option String
  num_seats : Int
deriving DecidableEq

/-- `BusSerializer` field validation for create: `info` is
`CharField(required=False)`, `num_seats` is `IntegerField(required=True)`;
per-field errors are collected. -/
def busSerializerValidateCreate (p : RawBusPayload) :
    Except (List (String × String)) ValidatedBusCreate :=
  let infoRes : Except (String × String) (Option String) :=
    match p.info with
    | none => Except.ok none
    | some v =>
        match validateCharField v with
        | Except.ok s => Except.ok (some s)
        | Except.error m => Except.error ("info", m)
  let seatsRes : Except (String × String) Int :=
    match p.num_seats with
    | none => Except.error ("num_seats", "This field is required.")
    | some v =>
        match validateIntegerField v with
        | Except.ok i => Except.ok i
        | Except.error m => Except.error ("num_seats", m)
  match infoRes, seatsRes with
  | Except.ok i, Except.ok n => Except.ok { info := i, num_seats := n }
  | Except.error e1, Except.error e2 => Except.error [e1, e2]
  | Except.error e1, Except.ok _ => Except.error [e1]
  | Except.ok _, Except.error e2 => Except.error [e2]

/-- Auto-increment id for a new bus row. -/
def freshBusId (db : Db) : Nat := (db.buses.map Bus.id).foldr max 0 + 1

/-- `BusSerializer.create` behind the create action: validation failure
aborts with a fielded validation error and writes nothing; success
persists `Bus.objects.create(**validated_data)`. -/
def busSerializerCreate (db : Db) (p : RawBusPayload) :
    Except ApiError (Db × Bus) :=
  match busSerializerValidateCreate p with
  | Except.error es => Except.error (ApiError.validationError es)
  | Except.ok v =>
      let b : Bus :=
        { id := freshBusId db, info := v.info, num_seats := v.num_seats,
          facilities := [] }
      Except.ok ({ db with buses := db.buses ++ [b] }, b)

/-- Validated data reaching `BusSerializer.update`: with a partial
update each declared field may be absent. -/
structure BusUpdatePayload where
  info : Option String
  num_seats : Option Int
deriving DecidableEq

/-- `BusSerializer.update`: each of `info` and `num_seats` is replaced
when present in `validated_data` and kept otherwise
(`validated_data.get(field, instance.field)`); the instance is saved and
returned. -/
def busSerializerUpdate (inst : Bus) (v : BusUpdatePayload) : Bus :=
  { inst with
    info := match v.info with
      | some s => some s
      | none => inst.info,
    num_seats := match v.num_seats with
      | some n => n
      | none => inst.num_seats }

/-- `OrderPagination.page_size`. -/
def orderPaginationPageSize : Nat := 5

/-- `OrderPagination.max_page_size`. -/
def orderPaginationMaxPageSize : Nat := 50

/-- The framework's strict positive-int parse with a cutoff: the string
must parse with `int(...)` to a strictly positive value, which is then
clamped to the cutoff; anything else is a failure. -/
def positiveIntStrictCutoff (s : String) (cutoff : Nat) : Option Nat :=
  match pyInt? s.data with
  | none => none
  | some i => if i ≤ 0 then none else some (min i.toNat cutoff)

/-- Effective page size of `OrderPagination`: the `page_size` query
parameter when it parses as a positive int (clamped to
`max_page_size`), and the default `page_size` otherwise. -/
def orderGetPageSize (pageSizeParam : Option String) : Nat :=
  match pageSizeParam with
  | none => orderPaginationPageSize
  | some s =>
      (positiveIntStrictCutoff s orderPaginationMaxPageSize).getD
        orderPaginationPageSize

/-- One page of the requesting user's order list, under the effective
page size. -/
def orderListPage (requesterId : Nat) (db : Db) (page : Nat)
    (pageSizeParam : Option String) : List Order :=
  let ps := orderGetPageSize pageSizeParam
  ((orderGetQueryset requesterId db).drop ((page - 1) * ps)).take ps

/-- Sample bus used for concrete evaluation. -/
def sampleBus : Bus :=
  { id := 1, info := some "city", num_seats := 40, facilities := [2, 7] }

/-- Sample trip referencing the sample bus. -/
def sampleTrip : Trip := { id := 1, busId := 1 }

/-- Sample store: one bus of 40 seats, one trip, one order of user 1
holding three tickets on the trip. -/
def sampleDb : Db :=
  { facilities := [⟨2, "WiFi"⟩, ⟨5, "AC"⟩],
    buses := [sampleBus],
    trips := [sampleTrip],
    orders := [⟨1, 1⟩],
    tickets := [⟨1, 1, "1A", 1⟩, ⟨2, 1, "1B", 1⟩, ⟨3, 1, "2A", 1⟩] }

/-- Sample order-creation request: two tickets on trip 1. -/
def samplePayload : OrderPayload :=
  { clientUserId := none, tickets := [⟨1, "3A"⟩, ⟨1, "3B"⟩] }

/-- Store for the oversubscription scenario: one bus with a single seat
and one trip, no tickets yet. -/
def overbookDb : Db :=
  { facilities := [],
    buses := [{ id := 1, info := none, num_seats := 1, facilities := [] }],
    trips := [⟨1, 1⟩],
    orders := [],
    tickets := [] }

/-- Request for two tickets on the single-seat trip. -/
def overbookPayload : OrderPayload :=
  { clientUserId := none, tickets := [⟨1, "1A"⟩, ⟨1, "1B"⟩] }

/-- Persisting the ticket rows of an order keeps one row per requested
ticket. -/
theorem buildTickets_length (baseId orderId : Nat) (l : List TicketPayload) :
    (buildTickets baseId orderId l).length = l.length := by
  induction l generalizing baseId with
  | nil => rfl
  | cons tp rest ih => simp [buildTickets, ih]

/-- The ticket rows persisted for an order reference exactly the trips of
the requested tickets. -/
theorem buildTickets_filter_length (baseId orderId tripId : Nat)
    (l : List TicketPayload) :
    ((buildTickets baseId orderId l).filter (fun tk => tk.tripId == tripId)).length =
      (l.filter (fun tp => tp.tripId == tripId)).length := by
  induction l generalizing baseId with
  | nil => rfl
  | cons tp rest ih =>
      by_cases h : tp.tripId == tripId
      · simp [buildTickets, List.filter_cons, h, ih]
      · simp [buildTickets, List.filter_cons, h, ih]

/-- Membership in the bus-facility join rows is membership in the bus
table together with a facility in the requested id set. -/
theorem mem_busFacilityJoinRows (buses : List Bus) (ids : List Int) (b : Bus) :
    b ∈ busFacilityJoinRows buses ids ↔
      b ∈ buses ∧ ∃ fid ∈ b.facilities, Int.ofNat fid ∈ ids := by
  unfold busFacilityJoinRows
  simp only [List.mem_flatMap, List.mem_map, List.mem_filter,
    decide_eq_true_eq]
  constructor
  · rintro ⟨b2, hb2, fid, ⟨hfid, hin⟩, rfl⟩
    exact ⟨hb2, fid, hfid, hin⟩
  · rintro ⟨hb, fid, hfid, hin⟩
    exact ⟨b, hb, fid, ⟨hfid, hin⟩, rfl⟩

/-- C5: for facility, bus and trip collections a single shared rule is
evaluated: the request is permitted if and only if the operation is
read-only and the identity is authenticated, or the identity is
privileged. -/
theorem accessPolicy_single_shared_rule (m : HttpMethod) (u : Option User) :
    (isAdminOrIFAuthenticatedReadOnly m u = true ↔
      ((readOnlyOperation m ∧ identityAuthenticated u) ∨ identityPrivileged u)) ∧
    busViewSetPermissionClasses =
      [PermissionClass.isAdminOrIFAuthenticatedReadOnlyClass] ∧
    tripViewSetPermissionClasses = busViewSetPermissionClasses ∧
    facilityViewSetPermissionClasses = busViewSetPermissionClasses := by
  refine ⟨?_, rfl, rfl, rfl⟩
  cases u with
  | none =>
      simp [isAdminOrIFAuthenticatedReadOnly, userTruthy, userIsAuthenticated,
        userIsStaff, identityAuthenticated, identityPrivileged]
  | some x =>
      cases m <;>
        simp [isAdminOrIFAuthenticatedReadOnly, userTruthy, userIsAuthenticated,
          userIsStaff, identityAuthenticated, identityPrivileged,
          readOnlyOperation, SAFE_METHODS]

/-- C10: bus update is partial and frame-preserving: a field absent from
the validated payload keeps its prior value, a present field is replaced,
no field outside info and num_seats changes, and the empty payload leaves
the bus unchanged. -/
theorem busUpdate_partial_and_frame_preserving (inst : Bus)
    (v : BusUpdatePayload) (s : String) (n : Int) :
    (busSerializerUpdate inst v).id = inst.id ∧
    (busSerializerUpdate inst v).facilities = inst.facilities ∧
    busSerializerUpdate inst { info := none, num_seats := none } = inst ∧
    (busSerializerUpdate inst { info := none, num_seats := v.num_seats }).info
      = inst.info ∧
    (busSerializerUpdate inst { info := v.info, num_seats := none }).num_seats
      = inst.num_seats ∧
    (busSerializerUpdate inst { info := some s, num_seats := v.num_seats }).info
      = some s ∧
    (busSerializerUpdate inst { info := v.info, num_seats := some n }).num_seats
      = n := by
  exact ⟨rfl, rfl, rfl, rfl, rfl, rfl, rfl⟩

/-- C8: order listing defaults to page size 5, the page_size parameter
adjusts it, and the effective page size never exceeds the ceiling 50; a
returned page never holds more rows than the effective page size. -/
theorem orderPagination_default_and_ceiling (s : String) (requesterId page : Nat)
    (db : Db) :
    orderGetPageSize none = 5 ∧
    orderGetPageSize (some s) ≤ 50 ∧
    orderGetPageSize (some "7") = 7 ∧
    orderGetPageSize (some "500") = 50 ∧
    (orderListPage requesterId db page (some s)).length ≤
      orderGetPageSize (some s) := by
  refine ⟨rfl, ?_, by decide, by decide, ?_⟩
  · unfold orderGetPageSize positiveIntStrictCutoff
    cases h : pyInt? s.data with
    | none => simp [h, orderPaginationPageSize]
    | some i =>
        by_cases hi : i ≤ 0
        · simp [h, hi, orderPaginationPageSize]
        · simp [h, hi, orderPaginationMaxPageSize]
  · unfold orderListPage
    simp [List.length_take]

/-- C3: the created order's owner always equals the requesting identity,
so two creation requests of the same requester that differ only in the
client-supplied user id produce orders with the same server-assigned
owner. -/
theorem orderCreate_owner_is_requester (u : Nat) (p1 p2 : OrderPayload)
    (db : Db) (_h : p1.tickets = p2.tickets) :
    (performCreateOrder u p1 db).2.userId = u ∧
    (performCreateOrder u p1 db).2 = (performCreateOrder u p2 db).2 := by
  exact ⟨rfl, rfl⟩

/-- Witness for C3 at concrete payloads differing only in the
client-supplied user id. -/
theorem orderCreate_owner_is_requester_witness :
    (performCreateOrder 3 { clientUserId := some 9, tickets := [] } sampleDb).2.userId = 3 ∧
    (performCreateOrder 3 { clientUserId := some 9, tickets := [] } sampleDb).2 =
      (performCreateOrder 3 { clientUserId := some 4, tickets := [] } sampleDb).2 :=
  orderCreate_owner_is_requester 3
    { clientUserId := some 9, tickets := [] }
    { clientUserId := some 4, tickets := [] } sampleDb rfl

/-- C1: every trip row returned by the list/retrieve queryset is
decorated with tickets_available equal to its bus's num_seats minus the
number of tickets referencing the trip, and the count is recomputed
correctly after a ticket-creating order. -/
theorem trip_tickets_available_correct (db : Db) (u : Nat) (p : OrderPayload)
    (t : Trip) (v : Int) (h : (t, v) ∈ tripGetQueryset db) :
    (∃ b, b ∈ db.buses ∧ b.id = t.busId ∧
      v = b.num_seats - (countTickets db t.id : Int)) ∧
    countTickets (performCreateOrder u p db).1 t.id =
      countTickets db t.id +
        (p.tickets.filter (fun tp => tp.tripId == t.id)).length := by
  constructor
  · unfold tripGetQueryset at h
    rcases List.mem_filterMap.mp h with ⟨t2, _ht2, heq⟩
    rcases Option.map_eq_some'.mp heq with ⟨b, hfind, hpair⟩
    injection hpair with h1 h2
    subst h1
    subst h2
    refine ⟨b, List.mem_of_find?_eq_some hfind, ?_, rfl⟩
    simpa using List.find?_some hfind
  · simp only [performCreateOrder, countTickets, List.filter_append,
      List.length_append]
    rw [buildTickets_filter_length]

/-- Witness for C1 on the sample store: the trip shows 37 of 40 seats
available before the two-ticket order, and the order adds two to the
ticket count. -/
theorem trip_tickets_available_correct_witness :
    (sampleTrip, (37 : Int)) ∈ tripGetQueryset sampleDb ∧
    ((∃ b, b ∈ sampleDb.buses ∧ b.id = sampleTrip.busId ∧
      (37 : Int) = b.num_seats - (countTickets sampleDb sampleTrip.id : Int)) ∧
    countTickets (performCreateOrder 8 samplePayload sampleDb).1 sampleTrip.id =
      countTickets sampleDb sampleTrip.id +
        (samplePayload.tickets.filter
          (fun tp => tp.tripId == sampleTrip.id)).length) :=
  ⟨by decide,
    trip_tickets_available_correct sampleDb 8 samplePayload sampleTrip 37
      (by decide)⟩

/-- C2: an order of user u1 is invisible to a different user u2: it is
absent from u2's queryset and retrieving its id as u2 is a not-found
error rather than a permission error, because the ownership filter is
applied before the lookup. -/
theorem order_reads_scoped_to_owner (db : Db) (u1 u2 : Nat) (o : Order)
    (hne : u1 ≠ u2) (hmem : o ∈ db.orders) (hown : o.userId = u1)
    (hids : (db.orders.map Order.id).Nodup) :
    o ∉ orderGetQueryset u2 db ∧
    orderRetrieve u2 o.id db = Except.error ApiError.notFound := by
  have hfilter : ∀ o2, o2 ∈ orderGetQueryset u2 db → o2.userId = u2 := by
    intro o2 h2
    have := (List.mem_filter.mp h2).2
    simpa using this
  constructor
  · intro hc
    have h2 := hfilter o hc
    rw [hown] at h2
    exact hne h2
  · cases hf : (orderGetQueryset u2 db).find? (fun x => x.id == o.id) with
    | none => simp [orderRetrieve, hf]
    | some o2 =>
        exfalso
        have h1 : o2 ∈ orderGetQueryset u2 db := List.mem_of_find?_eq_some hf
        have h2 : o2.id = o.id := by simpa using List.find?_some hf
        have h3 : o2 ∈ db.orders := (List.mem_filter.mp h1).1
        have h4 : o2 = o := List.inj_on_of_nodup_map hids h3 hmem h2
        have h5 := hfilter o2 h1
        rw [h4, hown] at h5
        exact hne h5

/-- Witness for C2: user 2 cannot see or retrieve user 1's order in the
sample store. -/
theorem order_reads_scoped_to_owner_witness :
    (⟨1, 1⟩ : Order) ∉ orderGetQueryset 2 sampleDb ∧
    orderRetrieve 2 1 sampleDb = Except.error ApiError.notFound :=
  order_reads_scoped_to_owner sampleDb 1 2 ⟨1, 1⟩ (by decide) (by decide) rfl
    (by decide)

/-- C4 counterexample: on a one-seat bus a two-ticket order is not
rejected, and the trip afterwards lists tickets_available = -1. -/
theorem overbooking_not_rejected :
    ((⟨1, 1⟩ : Trip), (-1 : Int)) ∈
      tripGetQueryset (performCreateOrder 5 overbookPayload overbookDb).1 ∧
    (performCreateOrder 5 overbookPayload overbookDb).1.orders =
      overbookDb.orders ++ [(performCreateOrder 5 overbookPayload overbookDb).2] := by
  exact ⟨by decide, rfl⟩

/-- C4 amended: order creation performs no capacity check: it always
persists the order and one ticket row per requested ticket, leaving
buses and trips untouched, so the tickets_available invariant is not
enforced at write time. -/
theorem ticket_creation_unchecked (requesterId : Nat) (p : OrderPayload)
    (db : Db) :
    (performCreateOrder requesterId p db).1.orders =
      db.orders ++ [(performCreateOrder requesterId p db).2] ∧
    (performCreateOrder requesterId p db).1.tickets.length =
      db.tickets.length + p.tickets.length ∧
    (performCreateOrder requesterId p db).1.buses = db.buses ∧
    (performCreateOrder requesterId p db).1.trips = db.trips := by
  refine ⟨rfl, ?_, rfl, rfl⟩
  simp [performCreateOrder, buildTickets_length]

/-- C6: with a facilities filter the bus list is exactly the distinct
set of buses whose facility set meets the requested ids (OR semantics),
with no duplicates; with no filter all buses are returned. -/
theorem busList_facilities_or_filter (db : Db) (s : String) (ids : List Int)
    (res : List Bus) (hs : s.data.isEmpty = false)
    (hp : paramsToInts s = some ids)
    (hres : busGetQueryset db (some s) = Except.ok res) :
    (∀ b, b ∈ res ↔ b ∈ db.buses ∧ ∃ fid ∈ b.facilities, Int.ofNat fid ∈ ids) ∧
    res.Nodup ∧
    busGetQueryset db none = Except.ok db.buses := by
  have hres2 : res = (busFacilityJoinRows db.buses ids).dedup := by
    simp [busGetQueryset, hs, hp] at hres
    exact hres.symm
  subst hres2
  refine ⟨?_, List.nodup_dedup _, rfl⟩
  intro b
  rw [List.mem_dedup]
  exact mem_busFacilityJoinRows db.buses ids b

/-- Witness for C6: filtering the sample store by facilities 2,5 returns
exactly the sample bus once. -/
theorem busList_facilities_or_filter_witness :
    (∀ b, b ∈ [sampleBus] ↔ b ∈ sampleDb.buses ∧
      ∃ fid ∈ b.facilities, Int.ofNat fid ∈ ([2, 5] : List Int)) ∧
    ([sampleBus] : List Bus).Nodup ∧
    busGetQueryset sampleDb none = Except.ok sampleDb.buses :=
  busList_facilities_or_filter sampleDb "2,5" [2, 5] [sampleBus]
    (by decide) (by decide) (by rfl)

/-- C7 counterexample: a create payload with num_seats = 0 passes
validation and the zero-capacity bus is written. -/
theorem busCreate_accepts_nonpositive :
    busSerializerCreate sampleDb
        { info := none, num_seats := some (RawValue.intVal 0) } =
      Except.ok
        ({ sampleDb with buses := sampleDb.buses ++
            [{ id := 2, info := none, num_seats := 0, facilities := [] }] },
          { id := 2, info := none, num_seats := 0, facilities := [] }) := by
  rfl

/-- C7 amended: bus creation requires num_seats: when it is absent the
request fails with the per-field required error and nothing is written,
and info may be omitted; the declared integer field carries no bound, so
any integer value, including a non-positive one, is accepted. -/
theorem busCreate_requires_num_seats (db : Db) (p : RawBusPayload) (n : Int)
    (habs : p.num_seats = none) :
    busSerializerCreate db p =
      Except.error (ApiError.validationError
        [("num_seats", "This field is required.")]) ∧
    busSerializerCreate db
        { info := none, num_seats := some (RawValue.intVal n) } =
      Except.ok
        ({ db with buses := db.buses ++
            [{ id := freshBusId db, info := none, num_seats := n,
               facilities := [] }] },
          { id := freshBusId db, info := none, num_seats := n,
            facilities := [] }) := by
  constructor
  · cases hi : p.info with
    | none => simp [busSerializerCreate, busSerializerValidateCreate, habs, hi]
    | some v =>
        cases v <;>
          simp [busSerializerCreate, busSerializerValidateCreate, habs, hi,
            validateCharField]
  · rfl

/-- Witness for C7's amended claim at a concrete payload missing
num_seats and a concrete non-positive capacity. -/
theorem busCreate_requires_num_seats_witness :
    busSerializerCreate sampleDb
        { info := some (RawValue.strVal "city"), num_seats := none } =
      Except.error (ApiError.validationError
        [("num_seats", "This field is required.")]) ∧
    busSerializerCreate sampleDb
        { info := none, num_seats := some (RawValue.intVal (-4)) } =
      Except.ok
        ({ sampleDb with buses := sampleDb.buses ++
            [{ id := freshBusId sampleDb, info := none, num_seats := -4,
               facilities := [] }] },
          { id := freshBusId sampleDb, info := none, num_seats := -4,
            facilities := [] }) :=
  busCreate_requires_num_seats sampleDb
    { info := some (RawValue.strVal "city"), num_seats := none } (-4) rfl

/-- C9: a facilities query parameter holding a non-numeric token makes
the int conversion fail, and the bus list surfaces the uncaught
ValueError instead of a fielded validation error. -/
theorem busList_nonnumeric_param_uncaught :
    paramsToInts "2,abc" = none ∧
    busGetQueryset sampleDb (some "2,abc") =
      Except.error (ApiError.uncaughtException "ValueError") := by
  exact ⟨rfl, rfl⟩
